import Mathlib

/-!
Shallow embedding of `src/webview.rs` from the `webview_rust` crate.

The file models the two backends of the crate's webview facade:

* the native backend (`mod webview_backend`): `Webview<'a>` holds
  `inner : Arc<sys::webview_t>` and `url : &'a str`; `WebviewMut` holds a
  `Weak<sys::webview_t>`.  Every operation is modelled as a pure function
  returning its result together with the list of engine (`sys::webview_*`)
  calls it performs, so that "observable effect on the engine" is the emitted
  call trace.
* the chrome backend (`mod chrome_backend`): only `navigate` is needed by the
  claims; it is modelled with its tab-presence check.

Strings are Lean `String`s (a NUL byte is the character `Char.ofNat 0`);
engine-supplied C strings are byte lists (`List Nat`).  A Rust
`expect`/`panic!` is the `panicked` outcome; reconstituting a `Box` from freed
storage is undefined behaviour, the `ub` outcome.
-/

/-- Engine calls of the native backend (the `sys::webview_*` FFI surface).
Each call records the raw handle (`webview_t`) it is applied to. -/
inductive EngineCall where
  | terminate (h : Nat)
  | destroy (h : Nat)
  | navigate (h : Nat) (url : String)
  | runLoop (h : Nat)
  | set_title (h : Nat) (title : String)
  | set_size (h : Nat) (width height hint : Int)
  | get_window (h : Nat)
  | initJs (h : Nat) (js : String)
  | evalJs (h : Nat) (js : String)
  | dispatch (h : Nat)
  | bindFn (h : Nat) (name : String)
  | ret (h : Nat) (seq : String) (status : Int) (result : String)
deriving DecidableEq, Repr

/-- Modelled from the spec: `crate::Error` lives in the crate root, which is
not under `src/`; the only variant `webview.rs` uses is `Error::WebviewNull`
(the spec's `NullReference`). -/
inductive Error where
  | WebviewNull
deriving DecidableEq, Repr

/-- Outcome of one Rust call: a value, a typed error, a process abort via
`expect`/`panic`, or undefined behaviour (a `Box::from_raw` on storage that
was already freed). -/
inductive CallResult (α : Type) where
  | ok : α → CallResult α
  | err : Error → CallResult α
  | panicked : String → CallResult α
  | ub : CallResult α
deriving DecidableEq, Repr

/-- Whether the call aborted the process. -/
def CallResult.isPanic {α : Type} : CallResult α → Bool
  | .panicked _ => true
  | _ => false

/-- Rust `CString::new`: fails iff the string contains a NUL byte. -/
def hasNulByte (s : String) : Bool :=
  s.toList.any fun c => c = Char.ofNat 0

/-- `CString::new(s)` as used with `.expect(msg)`: `none` is the `NulError`
case, on which the source panics with `msg`. -/
def cStringNew (s : String) : Option String :=
  if hasNulByte s then none else some s

/-- The size hints of `webview.rs` (`#[repr(i32)] enum SizeHint`). -/
inductive SizeHint where
  | NONE
  | MIN
  | MAX
  | FIXED
deriving DecidableEq, Repr

/-- The `#[repr(i32)]` discriminants written in the source:
`NONE = 0, MIN = 1, MAX = 2, FIXED = 3`; this is the value produced by
`hints as i32` in `set_size`. -/
def SizeHint.toI32 : SizeHint → Int
  | .NONE => 0
  | .MIN => 1
  | .MAX => 2
  | .FIXED => 3

/-- `impl Default for SizeHint` returns `SizeHint::NONE`. -/
def SizeHint.default : SizeHint := .NONE

/-- Native-backend `Webview<'a>`: `inner : Arc<sys::webview_t>` (the raw
handle is `handle`; the `Arc` cell itself is modelled where needed by the
count of strong references) and `url : &'a str`. -/
structure Webview where
  handle : Nat
  url : String
deriving DecidableEq, Repr

/-- The strong count `Arc::strong_count(&self.inner)` observed inside
`Drop::drop` for `Webview`: `self.inner` has not been dropped yet, so the
observed count is the number of other live strong references plus one for
`self.inner` itself. -/
def observedStrongAtDrop (others : Nat) : Nat := others + 1

/-- `impl Drop for Webview` from the source: emit
`webview_terminate` then `webview_destroy` if the observed strong count is
zero, otherwise nothing.  `others` is the number of strong references other
than `self.inner` that are still alive at drop time. -/
def webviewDrop (h : Nat) (others : Nat) : List EngineCall :=
  if observedStrongAtDrop others = 0 then
    [.terminate h, .destroy h]
  else
    []

/-- Dropping every one of `n` strong owners of the same cell, one after the
other: when the k-th value from the end is dropped, `k` other strong
references remain.  The result is the concatenation of the engine calls
emitted by each `Drop::drop`. -/
def dropAllOwners (h : Nat) : Nat → List EngineCall
  | 0 => []
  | n + 1 => webviewDrop h n ++ dropAllOwners h n

/-- `Webview::terminate`: `webview_terminate(*self.inner)`. -/
def Webview.terminate (w : Webview) : CallResult Unit × List EngineCall :=
  (.ok (), [.terminate w.handle])

/-- The engine is modelled as deterministically answering
`webview_get_window(h)`; the value itself is opaque to the facade. -/
def engineWindow (h : Nat) : Nat := h

/-- `Webview::get_window`: `webview_get_window(*self.inner)`. -/
def Webview.get_window (w : Webview) : CallResult Nat × List EngineCall :=
  (.ok (engineWindow w.handle), [.get_window w.handle])

/-- `Webview::navigate` of the native backend: the whole body is
`self.url = url;` — no engine call is made, in any state. -/
def Webview.navigate (w : Webview) (url : String) : Webview × List EngineCall :=
  ({ w with url := url }, [])

/-- `Webview::run` of the native backend: builds a `CString` from the pending
url (panicking on a NUL byte), then calls `webview_navigate` and
`webview_run`. -/
def Webview.runLoop (w : Webview) : CallResult Unit × List EngineCall :=
  match cStringNew w.url with
  | none => (.panicked "No null bytes in parameter url", [])
  | some c_url => (.ok (), [.navigate w.handle c_url, .runLoop w.handle])

/-- `Webview::set_title`: `CString::new(title).expect(..)` then
`webview_set_title`. -/
def Webview.set_title (w : Webview) (title : String) :
    CallResult Unit × List EngineCall :=
  match cStringNew title with
  | none => (.panicked "No null bytes in parameter title", [])
  | some c_title => (.ok (), [.set_title w.handle c_title])

/-- `Webview::set_size`: `webview_set_size(*self.inner, width, height,
hints as i32)`. -/
def Webview.set_size (w : Webview) (width height : Int) (hints : SizeHint) :
    CallResult Unit × List EngineCall :=
  (.ok (), [.set_size w.handle width height hints.toI32])

/-- `Webview::init`: `CString::new(js).expect(..)` then `webview_init`. -/
def Webview.initJs (w : Webview) (js : String) :
    CallResult Unit × List EngineCall :=
  match cStringNew js with
  | none => (.panicked "No null bytes in parameter js", [])
  | some c_js => (.ok (), [.initJs w.handle c_js])

/-- `Webview::eval`: `CString::new(js).expect(..)` then `webview_eval`. -/
def Webview.evalJs (w : Webview) (js : String) :
    CallResult Unit × List EngineCall :=
  match cStringNew js with
  | none => (.panicked "No null bytes in parameter js", [])
  | some c_js => (.ok (), [.evalJs w.handle c_js])

/-- `Webview::dispatch`: boxes the closure and calls `webview_dispatch`. -/
def Webview.dispatch (w : Webview) : CallResult Unit × List EngineCall :=
  (.ok (), [.dispatch w.handle])

/-- `Webview::bind`: `CString::new(name).expect(..)`, boxes the closure,
then calls `webview_bind`. -/
def Webview.bindFn (w : Webview) (name : String) :
    CallResult Unit × List EngineCall :=
  match cStringNew name with
  | none => (.panicked "No null bytes in parameter name", [])
  | some c_name => (.ok (), [.bindFn w.handle c_name])

/-- `Webview::r#return`: `CString::new(seq)` and `CString::new(result)`
(each with `.expect(..)`, in that order), then `webview_return`. -/
def Webview.ret (w : Webview) (seq : String) (status : Int) (result : String) :
    CallResult Unit × List EngineCall :=
  match cStringNew seq with
  | none => (.panicked "No null bytes in parameter seq", [])
  | some c_seq =>
    match cStringNew result with
    | none => (.panicked "No null bytes in parameter result", [])
    | some c_result => (.ok (), [.ret w.handle c_seq status c_result])

/-- Heap-allocation status of a boxed closure handed to the engine via
`Box::into_raw`. -/
inductive AllocStatus where
  | live
  | freed
deriving DecidableEq, Repr

/-- The boxed `FnOnce` closure of the dispatch protocol, identified by its
heap allocation and the number of times the user closure has run. -/
structure DispatchClosure where
  status : AllocStatus
  runs : Nat
deriving DecidableEq, Repr

/-- The state produced by `Box::into_raw(Box::new(f))` in
`Webview::dispatch` / `WebviewMut::dispatch`: a live allocation whose
closure has never run. -/
def dispatchScheduled : DispatchClosure := { status := .live, runs := 0 }

/-- The `extern "C" fn callback` of the dispatch protocol, applied by the
engine to the raw handle `h` and the boxed-closure argument.  It builds a
fresh facade view `Webview { inner: Arc::new(webview), url: "" }`, takes the
box back with `Box::from_raw` (undefined behaviour if the storage was
already freed by a previous invocation), runs the user closure on the view,
and then drops both the box (freeing the closure storage) and the view
(whose `Drop` emits `webviewDrop h 0`: the fresh `Arc` has no other strong
reference).  Returns the closure state after the call, the facade view the
user closure received, and the engine calls emitted by the view's drop. -/
def dispatchCallbackStep (h : Nat) (c : DispatchClosure) :
    CallResult (DispatchClosure × Webview × List EngineCall) :=
  match c.status with
  | .freed => .ub
  | .live =>
    .ok ({ status := .freed, runs := c.runs + 1 },
         { handle := h, url := "" },
         webviewDrop h 0)

/-- `n` successive invocations of the dispatch callback by the engine on the
same boxed-closure argument. -/
def dispatchInvokeN (h : Nat) : Nat → DispatchClosure → CallResult DispatchClosure
  | 0, c => .ok c
  | n + 1, c =>
    match dispatchCallbackStep h c with
    | .ok (c2, _, _) => dispatchInvokeN h n c2
    | .err e => .err e
    | .panicked m => .panicked m
    | .ub => .ub

/-- Whether `b` is a UTF-8 continuation byte (`0x80..=0xBF`). -/
def isCont (b : Nat) : Bool := 0x80 ≤ b && b ≤ 0xBF

/-- UTF-8 validity of a byte sequence, as checked by Rust's
`CStr::to_str` (RFC 3629: no overlong forms, no surrogates, no code points
above U+10FFFF). -/
def validUtf8 : List Nat → Bool
  | [] => true
  | b :: rest =>
    if b ≤ 0x7F then validUtf8 rest
    else if b < 0xC2 then false
    else if b ≤ 0xDF then
      match rest with
      | b1 :: r => isCont b1 && validUtf8 r
      | [] => false
    else if b ≤ 0xEF then
      match rest with
      | b1 :: b2 :: r =>
        (if b = 0xE0 then 0xA0 ≤ b1 && b1 ≤ 0xBF
         else if b = 0xED then 0x80 ≤ b1 && b1 ≤ 0x9F
         else isCont b1) && isCont b2 && validUtf8 r
      | _ => false
    else if b ≤ 0xF4 then
      match rest with
      | b1 :: b2 :: b3 :: r =>
        (if b = 0xF0 then 0x90 ≤ b1 && b1 ≤ 0xBF
         else if b = 0xF4 then 0x80 ≤ b1 && b1 ≤ 0x8F
         else isCont b1) && isCont b2 && isCont b3 && validUtf8 r
      | _ => false
    else false

/-- The boxed `FnMut` closure of the bind protocol: its heap allocation
status and the `(seq, req)` byte-string argument pairs the user closure has
received so far, in order. -/
structure BindClosure where
  status : AllocStatus
  calls : List (List Nat × List Nat)
deriving DecidableEq, Repr

/-- The state produced by `Box::into_raw(Box::new(f))` in `Webview::bind` /
`WebviewMut::bind`: a live allocation, no invocations yet. -/
def bindRegistered : BindClosure := { status := .live, calls := [] }

/-- The `extern "C" fn callback` of the bind protocol, applied by the engine
to the `seq` and `req` C strings (byte sequences) and the boxed-closure
argument.  In source order: `CStr::from_ptr(seq).to_str().expect(..)` (panic
on invalid UTF-8), the same for `req`, then `Box::from_raw` (undefined
behaviour on freed storage), the user-closure call `(*f)(seq, req)`, and
finally `mem::forget(f)` — the storage is NOT freed, so the closure stays
live for the next invocation. -/
def bindCallbackStep (seq req : List Nat) (c : BindClosure) :
    CallResult BindClosure :=
  if validUtf8 seq = false then .panicked "No null bytes in parameter seq"
  else if validUtf8 req = false then .panicked "No null bytes in parameter req"
  else
    match c.status with
    | .freed => .ub
    | .live => .ok { status := .live, calls := c.calls ++ [(seq, req)] }

/-- A sequence of engine invocations of the bind callback on the same
boxed-closure argument, with the given `(seq, req)` arguments in order. -/
def bindInvokeAll : List (List Nat × List Nat) → BindClosure → CallResult BindClosure
  | [], c => .ok c
  | (s, r) :: rest, c =>
    match bindCallbackStep s r c with
    | .ok c2 => bindInvokeAll rest c2
    | .err e => .err e
    | .panicked m => .panicked m
    | .ub => .ub

/-- Engine calls of the chrome backend used by the claims
(`headless_chrome::Tab` methods). -/
inductive ChromeCall where
  | navigate_to (url : String)
deriving DecidableEq, Repr

/-- The part of `chrome_backend::WebviewData` that `navigate` reads: the
optional active tab (`tab : Option<Arc<Tab>>`), `None` until `run` attaches
the browser. -/
structure ChromeData where
  tab : Option Nat
deriving DecidableEq, Repr

/-- `chrome_backend::Webview::navigate`: `self.url = url;` then, if
`self.data.read().unwrap().tab` is `Some(tab)`, `tab.navigate_to(&url)`.
Returns the new pending url and the emitted chrome calls. -/
def ChromeWebview.navigate (d : ChromeData) (url : String) :
    String × List ChromeCall :=
  (url,
    match d.tab with
    | some _ => [.navigate_to url]
    | none => [])

/-- Native-backend `WebviewMut(Weak<sys::webview_t>)`: a weak reference to
the owner group's cell.  `ownerStrong` is the cell's current strong count
(zero once every owning `Webview` has been dropped); `handle` is the raw
handle held in the cell. -/
structure WebviewMut where
  ownerStrong : Nat
  handle : Nat
deriving DecidableEq, Repr

/-- `Weak::upgrade` on the modelled cell: succeeds iff a strong owner is
still alive, yielding the shared raw handle. -/
def WebviewMut.upgrade (r : WebviewMut) : Option Nat :=
  if 0 < r.ownerStrong then some r.handle else none

/-- `WebviewMut::terminate`: upgrade (`ok_or(Error::WebviewNull)?`), then
`webview_terminate(*webview)`. -/
def WebviewMut.terminate (r : WebviewMut) : CallResult Unit × List EngineCall :=
  match r.upgrade with
  | none => (.err .WebviewNull, [])
  | some h => (.ok (), [.terminate h])

/-- `WebviewMut::get_window`: upgrade, then `webview_get_window`. -/
def WebviewMut.get_window (r : WebviewMut) : CallResult Nat × List EngineCall :=
  match r.upgrade with
  | none => (.err .WebviewNull, [])
  | some h => (.ok (engineWindow h), [.get_window h])

/-- `WebviewMut::dispatch`: upgrade, box the closure, `webview_dispatch`. -/
def WebviewMut.dispatch (r : WebviewMut) : CallResult Unit × List EngineCall :=
  match r.upgrade with
  | none => (.err .WebviewNull, [])
  | some h => (.ok (), [.dispatch h])

/-- `WebviewMut::bind`: upgrade FIRST, then `CString::new(name).expect(..)`
(so a NUL byte in `name` panics only when the owner is still alive), box the
closure, `webview_bind`. -/
def WebviewMut.bindFn (r : WebviewMut) (name : String) :
    CallResult Unit × List EngineCall :=
  match r.upgrade with
  | none => (.err .WebviewNull, [])
  | some h =>
    match cStringNew name with
    | none => (.panicked "No null bytes in parameter name", [])
    | some c_name => (.ok (), [.bindFn h c_name])

/-- `WebviewMut::r#return`: upgrade, then `CString::new(seq)` and
`CString::new(result)` with `.expect(..)`, then `webview_return`. -/
def WebviewMut.ret (r : WebviewMut) (seq : String) (status : Int)
    (result : String) : CallResult Unit × List EngineCall :=
  match r.upgrade with
  | none => (.err .WebviewNull, [])
  | some h =>
    match cStringNew seq with
    | none => (.panicked "No null bytes in parameter seq", [])
    | some c_seq =>
      match cStringNew result with
      | none => (.panicked "No null bytes in parameter result", [])
      | some c_result => (.ok (), [.ret h c_seq status c_result])

/-! ## Claims -/

/-- C1: the claim states that the underlying Handle is released
(`webview_terminate` then `webview_destroy`) exactly once, when the last
strong owner of the shared cell is dropped.  On the code this release never
happens: `Drop for Webview` tests `Arc::strong_count(&self.inner) == 0`
while `self.inner` itself still holds a strong reference, so the observed
count is `others + 1 ≥ 1` and the guard is never taken.  Dropping any owner
— the last one included (`dropAllOwners h 1`, the failing input) — emits no
engine call, so the Handle is released zero times, never once. -/
theorem C1_drop_never_releases (h others n : Nat) :
    webviewDrop h others = [] ∧
    dropAllOwners h n = [] ∧
    (dropAllOwners h 1).count (EngineCall.destroy h) = 0 := by
  refine ⟨?_, ?_, ?_⟩
  · simp [webviewDrop, observedStrongAtDrop]
  · induction n with
    | zero => rfl
    | succ k ih => simp [dropAllOwners, webviewDrop, observedStrongAtDrop, ih]
  · rfl

/-- C2: every `WebviewMut` operation — terminate, get_window, dispatch,
bind, return — invoked after the owner group has been fully dropped (strong
count zero, so `Weak::upgrade` fails) returns `Err(Error::WebviewNull)` and
performs no engine call (the emitted trace is empty), for every argument,
NUL-containing strings included. -/
theorem C2_dead_owner_returns_null (hdl : Nat) (name seq result : String)
    (status : Int) :
    WebviewMut.terminate ⟨0, hdl⟩ = (.err .WebviewNull, []) ∧
    WebviewMut.get_window ⟨0, hdl⟩ = (.err .WebviewNull, []) ∧
    WebviewMut.dispatch ⟨0, hdl⟩ = (.err .WebviewNull, []) ∧
    WebviewMut.bindFn ⟨0, hdl⟩ name = (.err .WebviewNull, []) ∧
    WebviewMut.ret ⟨0, hdl⟩ seq status result = (.err .WebviewNull, []) := by
  refine ⟨rfl, rfl, rfl, rfl, rfl⟩

/-- C9: the size-hint enumeration serializes to the wire exactly as
`NONE = 0, MIN = 1, MAX = 2, FIXED = 3`: the `hints as i32` cast in
`set_size` produces those discriminants, and every `set_size` call passes
exactly that integer to the engine. -/
theorem C9_size_hint_wire_values (w : Webview) (width height : Int)
    (hint : SizeHint) :
    SizeHint.toI32 .NONE = 0 ∧
    SizeHint.toI32 .MIN = 1 ∧
    SizeHint.toI32 .MAX = 2 ∧
    SizeHint.toI32 .FIXED = 3 ∧
    Webview.set_size w width height .NONE =
      (.ok (), [.set_size w.handle width height 0]) ∧
    Webview.set_size w width height .MIN =
      (.ok (), [.set_size w.handle width height 1]) ∧
    Webview.set_size w width height .MAX =
      (.ok (), [.set_size w.handle width height 2]) ∧
    Webview.set_size w width height .FIXED =
      (.ok (), [.set_size w.handle width height 3]) ∧
    Webview.set_size w width height hint =
      (.ok (), [.set_size w.handle width height hint.toI32]) := by
  refine ⟨rfl, rfl, rfl, rfl, rfl, rfl, rfl, rfl, rfl⟩

/-- A string consisting of the single NUL byte, used as a concrete
NUL-containing argument. -/
def nulString : String := String.mk [Char.ofNat 0]

/-- A string with an interior NUL byte (`"n\0b"`). -/
def interiorNulString : String := String.mk [Char.ofNat 110, Char.ofNat 0, Char.ofNat 98]

/-- C3 counterexample: the claim says a `WebviewMut` operation never
panics/aborts, for every input including strings with interior NUL bytes.
But `WebviewMut::bind`, invoked while the owner is still alive (strong count
1) with the name `"n\0b"`, reaches `CString::new(name).expect(..)` and
panics — the failure is not returned as a typed `Result`. -/
theorem C3_counterexample :
    (WebviewMut.bindFn ⟨1, 7⟩ interiorNulString).1 =
      .panicked "No null bytes in parameter name" ∧
    (WebviewMut.bindFn ⟨1, 7⟩ interiorNulString).1.isPanic = true := by
  refine ⟨rfl, rfl⟩

/-- C3 amended: a `WebviewMut` operation invoked after the owner group is
gone never panics (it returns the typed `WebviewNull` error), and
`terminate`, `get_window` and `dispatch` never panic at all; but `bind` and
`return` panic exactly when the owner is still alive and a string argument
contains a NUL byte (the spec's fatal `EncodingViolation`).  Equivalently:
the panic characterisation below, for every weak reference and every
argument. -/
theorem C3_weak_panic_characterisation (r : WebviewMut)
    (name seq result : String) (status : Int) :
    (WebviewMut.terminate r).1.isPanic = false ∧
    (WebviewMut.get_window r).1.isPanic = false ∧
    (WebviewMut.dispatch r).1.isPanic = false ∧
    (WebviewMut.bindFn r name).1.isPanic =
      (decide (0 < r.ownerStrong) && hasNulByte name) ∧
    (WebviewMut.ret r seq status result).1.isPanic =
      (decide (0 < r.ownerStrong) && (hasNulByte seq || hasNulByte result)) := by
  by_cases h0 : 0 < r.ownerStrong <;>
    by_cases hn : hasNulByte name <;>
      by_cases hs : hasNulByte seq <;>
        by_cases hr : hasNulByte result <;>
          simp [WebviewMut.terminate, WebviewMut.get_window, WebviewMut.dispatch,
                WebviewMut.bindFn, WebviewMut.ret, WebviewMut.upgrade, cStringNew,
                CallResult.isPanic, h0, hn, hs, hr]

/-- C4 counterexample: the claim says every `navigate(url)` call on an
OwningFacade both records the target and, when a live session is already
running, immediately re-navigates the session during that call.  The native
backend's `Webview::navigate` is `self.url = url;` alone: it is
state-independent, so also while the engine session is live (during `run`,
e.g. from a dispatched closure) it emits no engine call — here a concrete
facade with a pending url is re-targeted and the emitted engine-call trace
is empty, with no `webview_navigate` issued. -/
theorem C4_counterexample :
    Webview.navigate { handle := 1, url := "https://a.test" } "https://b.test" =
      ({ handle := 1, url := "https://b.test" }, []) := by
  rfl

/-- C4 amended: `navigate` records the pending target in both backends; the
chrome backend additionally re-navigates immediately exactly when a live tab
session exists; the native backend never issues an immediate engine
navigation — its recorded target is applied only when `run` starts, which
first navigates to the pending url and then enters the engine loop. -/
theorem C4_navigate_records_target (w : Webview) (url : String)
    (d : ChromeData) (hu : hasNulByte url = false) :
    (Webview.navigate w url).1.url = url ∧
    (Webview.navigate w url).2 = [] ∧
    Webview.runLoop (Webview.navigate w url).1 =
      (.ok (), [.navigate w.handle url, .runLoop w.handle]) ∧
    (ChromeWebview.navigate d url).1 = url ∧
    (ChromeWebview.navigate d url).2.contains (.navigate_to url) = d.tab.isSome := by
  refine ⟨rfl, rfl, ?_, rfl, ?_⟩
  · simp [Webview.runLoop, Webview.navigate, cStringNew, hu]
  · cases d with
    | mk tab =>
      cases tab <;> simp [ChromeWebview.navigate]

/-- C4 witness: the amended navigate property evaluated at the concrete
facade `⟨1, "https://a.test"⟩`, url `"https://b.test"` and a chrome state
with a live tab. -/
theorem C4_navigate_records_target_witness :
    (Webview.navigate ⟨1, "https://a.test"⟩ "https://b.test").1.url = "https://b.test" ∧
    (Webview.navigate ⟨1, "https://a.test"⟩ "https://b.test").2 = [] ∧
    Webview.runLoop (Webview.navigate ⟨1, "https://a.test"⟩ "https://b.test").1 =
      (.ok (), [.navigate 1 "https://b.test", .runLoop 1]) ∧
    (ChromeWebview.navigate ⟨some 4⟩ "https://b.test").1 = "https://b.test" ∧
    (ChromeWebview.navigate ⟨some 4⟩ "https://b.test").2.contains
      (.navigate_to "https://b.test") = (Option.some 4).isSome :=
  C4_navigate_records_target ⟨1, "https://a.test"⟩ "https://b.test" ⟨some 4⟩ (by decide)

/-- C5: a closure passed to `dispatch` is boxed and handed to the engine,
which — per its dispatch contract — invokes the callback exactly once on the
Handle's owning execution context.  From the scheduled state the single
invocation runs the user closure exactly once (`runs = 1`), hands it a
freshly wrapped facade view bound to that raw handle
(`{ handle := h, url := "" }`), and frees the heap allocation
(`status = .freed`); invoking the callback on an already-freed closure is
undefined behaviour (`Box::from_raw` on freed storage), so no valid
execution runs the closure a second time — in particular a double engine
invocation of the scheduled closure is `ub`. -/
theorem C5_dispatch_exactly_once (h : Nat) (c : DispatchClosure)
    (hc : c.status = .freed) :
    dispatchCallbackStep h dispatchScheduled =
      .ok ({ status := .freed, runs := 1 }, { handle := h, url := "" }, []) ∧
    dispatchInvokeN h 1 dispatchScheduled = .ok { status := .freed, runs := 1 } ∧
    dispatchCallbackStep h c = .ub ∧
    dispatchInvokeN h 2 dispatchScheduled = .ub := by
  refine ⟨rfl, rfl, ?_, rfl⟩
  simp [dispatchCallbackStep, hc]

/-- C5 witness: the dispatch-once property evaluated at handle 3 and the
concrete already-freed closure state. -/
theorem C5_dispatch_exactly_once_witness :
    dispatchCallbackStep 3 dispatchScheduled =
      .ok ({ status := .freed, runs := 1 }, { handle := 3, url := "" }, []) ∧
    dispatchInvokeN 3 1 dispatchScheduled = .ok { status := .freed, runs := 1 } ∧
    dispatchCallbackStep 3 { status := .freed, runs := 1 } = .ub ∧
    dispatchInvokeN 3 2 dispatchScheduled = .ub :=
  C5_dispatch_exactly_once 3 { status := .freed, runs := 1 } rfl

/-- C6: the facade view reconstructed inside the dispatch callback wraps the
raw engine-supplied handle in a fresh `Arc`, so when the view is dropped its
`Drop` observes a strong count of at least one and emits nothing: every
successful callback invocation emits no engine call from the view's drop
(in particular no `webview_destroy`), and no matter how many extra strong
clones of the view exist at drop time, its drop never calls
`webview_destroy` on the handle. -/
theorem C6_view_drop_never_destroys (h k : Nat) (c c2 : DispatchClosure)
    (v : Webview) (calls : List EngineCall)
    (hok : dispatchCallbackStep h c = .ok (c2, v, calls)) :
    calls = [] ∧
    EngineCall.destroy v.handle ∉ calls ∧
    EngineCall.destroy h ∉ webviewDrop h k := by
  have hcalls : calls = [] := by
    cases hst : c.status with
    | freed => simp [dispatchCallbackStep, hst] at hok
    | live =>
      simp [dispatchCallbackStep, hst, webviewDrop, observedStrongAtDrop] at hok
      exact hok.2.2
  refine ⟨hcalls, by simp [hcalls], ?_⟩
  simp [webviewDrop, observedStrongAtDrop]

/-- C6 witness: the view-drop property evaluated at handle 2, five extra
clones, and the concrete successful invocation of the scheduled closure. -/
theorem C6_view_drop_never_destroys_witness :
    ([] : List EngineCall) = [] ∧
    EngineCall.destroy (Webview.mk 2 "").handle ∉ ([] : List EngineCall) ∧
    EngineCall.destroy 2 ∉ webviewDrop 2 5 :=
  C6_view_drop_never_destroys 2 5 dispatchScheduled
    { status := .freed, runs := 1 } { handle := 2, url := "" } [] rfl

/-- Helper: invoking the bind callback any number of times on a live
registration, with valid-UTF-8 arguments, keeps the storage live and
appends each argument pair in order. -/
theorem bindInvokeAll_ok (invs : List (List Nat × List Nat)) :
    ∀ cs, (∀ p ∈ invs, validUtf8 p.1 = true ∧ validUtf8 p.2 = true) →
      bindInvokeAll invs { status := .live, calls := cs } =
        .ok { status := .live, calls := cs ++ invs } := by
  induction invs with
  | nil => intro cs _; simp [bindInvokeAll]
  | cons p rest ih =>
    intro cs hv
    obtain ⟨s, r⟩ := p
    obtain ⟨hs, hr⟩ := hv (s, r) (by simp)
    have hrest : ∀ q ∈ rest, validUtf8 q.1 = true ∧ validUtf8 q.2 = true :=
      fun q hq => hv q (by simp [hq])
    simp [bindInvokeAll, bindCallbackStep, hs, hr, ih (cs ++ [(s, r)]) hrest]

/-- C7: a closure registered via `bind` is reconstituted by the bridge on
each engine invocation without freeing its backing storage — the callback
takes the box back with `Box::from_raw`, calls the closure, then
`mem::forget`s the box, restoring ownership.  Hence for any sequence of
engine invocations (with decodable arguments) of the same registration, every
invocation succeeds, the closure receives each `(seq, req)` pair in order,
and the storage is still live afterwards, so the closure remains valid and
callable for every subsequent invocation. -/
theorem C7_bind_closure_survives (invs : List (List Nat × List Nat))
    (hv : ∀ p ∈ invs, validUtf8 p.1 = true ∧ validUtf8 p.2 = true) :
    bindInvokeAll invs bindRegistered = .ok { status := .live, calls := invs } := by
  simpa [bindRegistered] using bindInvokeAll_ok invs [] hv

/-- C7 witness: two binds-then-two-simulated-invocations, the spec's test —
sequence ids `"1"`, `"2"` (bytes 49, 50) and payloads `"\"Alice\""`,
`"\"Bob\""`; both invocations run and the registration stays live. -/
theorem C7_bind_closure_survives_witness :
    bindInvokeAll
      [([49], [34, 65, 108, 105, 99, 101, 34]), ([50], [34, 66, 111, 98, 34])]
      bindRegistered =
      .ok { status := .live,
            calls := [([49], [34, 65, 108, 105, 99, 101, 34]),
                      ([50], [34, 66, 111, 98, 34])] } :=
  C7_bind_closure_survives
    [([49], [34, 65, 108, 105, 99, 101, 34]), ([50], [34, 66, 111, 98, 34])]
    (by decide)

/-- C10: the bind-protocol callback decodes the engine-supplied `seq` and
`req` C strings with `CStr::to_str().expect(..)` before touching the user
closure: it panics exactly when one of the two byte strings is not valid
UTF-8 (so the user closure is not invoked), and the user closure is invoked
— receiving exactly that `(seq, req)` pair — precisely when both decode as
valid UTF-8. -/
theorem C10_bind_utf8_guard (seq req : List Nat) (c : BindClosure)
    (hlive : c.status = .live) :
    (bindCallbackStep seq req c).isPanic = (!validUtf8 seq || !validUtf8 req) ∧
    (bindCallbackStep seq req c =
        .ok { status := .live, calls := c.calls ++ [(seq, req)] } ↔
      validUtf8 seq = true ∧ validUtf8 req = true) := by
  obtain ⟨st, cs⟩ := c
  cases hlive
  by_cases h1 : validUtf8 seq <;> by_cases h2 : validUtf8 req <;>
    simp [bindCallbackStep, CallResult.isPanic, h1, h2]

/-- C10 witness: the UTF-8 guard evaluated at the valid sequence id
`[49]` (`"1"`), the invalid request payload `[255]` (a lone `0xFF` byte is
never valid UTF-8) and a live registration: the callback panics and the
closure is not invoked. -/
theorem C10_bind_utf8_guard_witness :
    (bindCallbackStep [49] [255] bindRegistered).isPanic =
      (!validUtf8 [49] || !validUtf8 [255]) ∧
    (bindCallbackStep [49] [255] bindRegistered =
        .ok { status := .live, calls := bindRegistered.calls ++ [([49], [255])] } ↔
      validUtf8 [49] = true ∧ validUtf8 [255] = true) :=
  C10_bind_utf8_guard [49] [255] bindRegistered rfl

/-- C8 counterexample: the claim says every `WebviewMut` operation invoked
while the owner is alive succeeds.  `WebviewMut::r#return`, invoked with a
live owner (strong count 1) and a sequence id containing a NUL byte, reaches
`CString::new(seq).expect(..)` and panics instead of succeeding. -/
theorem C8_counterexample :
    (WebviewMut.ret ⟨1, 7⟩ nulString 0 "ok").1 =
      .panicked "No null bytes in parameter seq" ∧
    (WebviewMut.ret ⟨1, 7⟩ nulString 0 "ok").1 ≠ .ok () := by
  refine ⟨rfl, by decide⟩

/-- C8 amended: every `WebviewMut` operation invoked while the owner group
is alive behaves exactly as the corresponding owning `Webview` operation
with the same arguments — same result (panics on NUL-containing strings
included) and the same engine-call trace; in particular it succeeds with the
same observable engine effect whenever the owning call succeeds. -/
theorem C8_weak_mirrors_owning (strong hdl : Nat) (url name seq result : String)
    (status : Int) (hs : 0 < strong) :
    WebviewMut.terminate ⟨strong, hdl⟩ = Webview.terminate ⟨hdl, url⟩ ∧
    WebviewMut.get_window ⟨strong, hdl⟩ = Webview.get_window ⟨hdl, url⟩ ∧
    WebviewMut.dispatch ⟨strong, hdl⟩ = Webview.dispatch ⟨hdl, url⟩ ∧
    WebviewMut.bindFn ⟨strong, hdl⟩ name = Webview.bindFn ⟨hdl, url⟩ name ∧
    WebviewMut.ret ⟨strong, hdl⟩ seq status result =
      Webview.ret ⟨hdl, url⟩ seq status result := by
  simp [WebviewMut.terminate, WebviewMut.get_window, WebviewMut.dispatch,
        WebviewMut.bindFn, WebviewMut.ret, WebviewMut.upgrade,
        Webview.terminate, Webview.get_window, Webview.dispatch,
        Webview.bindFn, Webview.ret, hs]

/-- C8 witness: the weak-mirrors-owning property evaluated at strong count
1, handle 7, pending url `"u"`, bound name `"greet"`, sequence id `"1"`,
status 0 and result `"ok"`. -/
theorem C8_weak_mirrors_owning_witness :
    WebviewMut.terminate ⟨1, 7⟩ = Webview.terminate ⟨7, "u"⟩ ∧
    WebviewMut.get_window ⟨1, 7⟩ = Webview.get_window ⟨7, "u"⟩ ∧
    WebviewMut.dispatch ⟨1, 7⟩ = Webview.dispatch ⟨7, "u"⟩ ∧
    WebviewMut.bindFn ⟨1, 7⟩ "greet" = Webview.bindFn ⟨7, "u"⟩ "greet" ∧
    WebviewMut.ret ⟨1, 7⟩ "1" 0 "ok" = Webview.ret ⟨7, "u"⟩ "1" 0 "ok" :=
  C8_weak_mirrors_owning 1 7 "u" "greet" "1" "ok" 0 (by decide)
